import Mathlib

/-!
Verification of the resume-tailoring job-application assistant.

Shallow embedding of the Python sources:
* `src/resume_tailor.py` — keyword extraction, keyword scoring, resume tailoring
* `src/job_database.py` — job record store, de-duplicating bulk insert, status
  update, fit categorization
* `src/profile_manager.py` — profile save/load/create over a JSON document store

Python strings are modelled as Lean `String`; the string primitives the code
uses (`lower`, `in`, `" ".join`, `split`) are implemented below by structural
recursion over the character list, mirroring Python semantics (`lower` as the
ASCII case map, `in` as contiguous-substring containment, `split()` as
whitespace tokenisation dropping empty pieces). Python lists are Lean `List`,
Python dicts are insertion-ordered association lists, and a raised exception
is `Except.error`.
-/

/-- Python `s.lower()` (case mapping per character, as `Char.toLower`). -/
def pyLower (s : String) : String :=
  String.mk (s.data.map Char.toLower)

/-- Does `needle` occur at the head of `hay`? (One alignment of the naive
substring search.) -/
def leadsChars : List Char → List Char → Bool
  | [], _ => true
  | _ :: _, [] => false
  | c :: cs, d :: ds => c == d && leadsChars cs ds

/-- Does `needle` occur contiguously anywhere in `hay`? -/
def containsChars (needle : List Char) : List Char → Bool
  | [] => leadsChars needle []
  | d :: ds => leadsChars needle (d :: ds) || containsChars needle ds

/-- Python `needle in hay` for strings: substring containment. -/
def strContains (hay needle : String) : Bool :=
  containsChars needle.data hay.data

/-- Characters of `" ".join(fragments)`. -/
def joinSpaceChars : List (List Char) → List Char
  | [] => []
  | [x] => x
  | x :: y :: ys => x ++ ' ' :: joinSpaceChars (y :: ys)

/-- Python `" ".join(text_list)`. -/
def joinSpace (text_list : List String) : String :=
  String.mk (joinSpaceChars (text_list.map String.data))

/-- Whitespace tokenisation, accumulating the current word in reverse. -/
def pyWordsAux (cur : List Char) : List Char → List (List Char)
  | [] => if cur.isEmpty then [] else [cur.reverse]
  | c :: cs =>
    if c.isWhitespace then
      if cur.isEmpty then pyWordsAux [] cs else cur.reverse :: pyWordsAux [] cs
    else
      pyWordsAux (c :: cur) cs

/-- Python `s.split()`: split on whitespace, discarding empty pieces. -/
def pySplit (s : String) : List String :=
  (pyWordsAux [] s.data).map String.mk

/-- `ResumeTailor._calculate_keyword_score` (resume_tailor.py lines 14-21):
join the text fragments with spaces, lowercase, and count the keywords whose
lowercasing occurs as a substring. -/
def calculate_keyword_score (text_list : List String) (keywords : List String) : Nat :=
  let text_content := pyLower (joinSpace text_list)
  keywords.foldl
    (fun score keyword => if strContains text_content (pyLower keyword) then score + 1 else score)
    0

/-- `ResumeTailor._extract_keywords_from_job_description` (resume_tailor.py
lines 23-30): lowercased whitespace tokens of length > 2. -/
def extract_keywords (job_description : String) : List String :=
  ((pySplit job_description).filter (fun word => 2 < word.length)).map pyLower

example : extract_keywords "Seeking Python engineer" = ["seeking", "python", "engineer"] := by
  decide

example : calculate_keyword_score ["Python", "SQL"] ["python", "sql", "java"] = 2 := by decide

example : calculate_keyword_score ["python"] ["python", "python"] = 2 := by decide

/-! ### Keyword score: C3, C4 -/

theorem leadsChars_iff (n : List Char) : ∀ h : List Char, leadsChars n h = true ↔ n <+: h := by
  induction n with
  | nil => intro h; simp [leadsChars]
  | cons c cs ih =>
    intro h
    cases h with
    | nil => simp [leadsChars]
    | cons d ds => simp [leadsChars, List.cons_prefix_cons, ih]

theorem containsChars_iff (n : List Char) :
    ∀ h : List Char, containsChars n h = true ↔ n <:+: h := by
  intro h
  induction h with
  | nil => cases n <;> simp [containsChars, leadsChars]
  | cons d ds ih =>
    simp [containsChars, leadsChars_iff, ih, List.infix_cons_iff]

theorem foldl_count (p : α → Bool) (K : List α) (n : Nat) :
    K.foldl (fun s k => if p k then s + 1 else s) n = n + K.countP p := by
  induction K generalizing n with
  | nil => simp
  | cons a l ih => simp only [List.foldl, List.countP_cons, ih]; split <;> omega

theorem score_eq_countP (T K : List String) :
    calculate_keyword_score T K
      = K.countP (fun k => strContains (pyLower (joinSpace T)) (pyLower k)) := by
  simp only [calculate_keyword_score]
  simpa using foldl_count (fun k => strContains (pyLower (joinSpace T)) (pyLower k)) K 0

/-- Claim C3: for all keyword lists `K` and text fragment lists `T`, the keyword
score equals the number of elements `k` of `K` whose lowercasing is a substring
of the lowercased space-join of `T`; the score is invariant under reordering of
`K` and non-negative. -/
theorem keyword_score_spec (T K : List String) :
    (calculate_keyword_score T K
        = K.countP (fun k => strContains (pyLower (joinSpace T)) (pyLower k)))
    ∧ (∀ k : String, strContains (pyLower (joinSpace T)) (pyLower k) = true
        ↔ (pyLower k).data <:+: (pyLower (joinSpace T)).data)
    ∧ (∀ K2, K.Perm K2 → calculate_keyword_score T K = calculate_keyword_score T K2)
    ∧ 0 ≤ calculate_keyword_score T K := by
  refine ⟨score_eq_countP T K, ?_, ?_, Nat.zero_le _⟩
  · intro k; simp [strContains, containsChars_iff]
  · intro K2 h
    rw [score_eq_countP, score_eq_countP]
    exact h.countP_eq _

/-- Witness for C3 at a concrete input: reordering the keyword list keeps the
score. -/
theorem keyword_score_spec_witness :
    calculate_keyword_score ["Ab"] ["a", "b"] = calculate_keyword_score ["Ab"] ["b", "a"] :=
  (keyword_score_spec ["Ab"] ["a", "b"]).2.2.1 ["b", "a"] (List.Perm.swap "b" "a" [])

/-- Counterexample to C4 as stated: a duplicated matching keyword is counted
once per occurrence, so deduplicating the keyword list changes the score. -/
theorem score_dedup_counterexample :
    calculate_keyword_score ["python"] ["python", "python"] = 2
    ∧ (["python", "python"] : List String).dedup = ["python"]
    ∧ calculate_keyword_score ["python"] (["python", "python"] : List String).dedup = 1 := by
  refine ⟨by decide, by decide, by decide⟩

/-- Claim C4 (amended): deduplicating the keyword list can only lower the
score (each duplicate occurrence of a matching keyword adds one), and the
score is unchanged by deduplication when the keyword list has no duplicates. -/
theorem score_dedup_le (T K : List String) :
    calculate_keyword_score T K.dedup ≤ calculate_keyword_score T K
    ∧ (K.Nodup → calculate_keyword_score T K.dedup = calculate_keyword_score T K) := by
  constructor
  · rw [score_eq_countP, score_eq_countP]
    exact (List.dedup_sublist K).countP_le _
  · intro h; rw [List.dedup_eq_self.2 h]

/-- Witness for the amended C4 at a concrete duplicate-free keyword list. -/
theorem score_dedup_le_witness :
    calculate_keyword_score ["x"] (["a", "b"] : List String).dedup
      = calculate_keyword_score ["x"] ["a", "b"] :=
  (score_dedup_le ["x"] ["a", "b"]).2 (by decide)

/-! ### Resume tailoring (resume_tailor.py lines 32-78) -/

/-- A work-experience entry; the fields read by `tailor_resume` are modelled,
with `description`/`technologies` defaulting to `[]` as in `exp.get(..., [])`. -/
structure WorkExp where
  title : String
  company : String
  description : List String := []
  technologies : List String := []
deriving DecidableEq

/-- A project entry, as read by `tailor_resume` (lines 59-63). -/
structure Project where
  name : String
  description : List String := []
  technologies : List String := []
deriving DecidableEq

/-- A loaded profile. `personal_info` and `education` are only copied through
by `tailor_resume`, so they are modelled as opaque association-list data. -/
structure Profile where
  personal_info : List (String × String)
  education : List (List (String × String))
  work_experience : List WorkExp
  projects : List Project
  skills : List (String × List String)
deriving DecidableEq

/-- The per-entry text of a work experience (line 49):
`[exp["title"], exp["company"]] + exp.get("description", []) + exp.get("technologies", [])`. -/
def expText (exp : WorkExp) : List String :=
  [exp.title, exp.company] ++ exp.description ++ exp.technologies

/-- The per-entry text of a project (line 61). -/
def projText (proj : Project) : List String :=
  [proj.name] ++ proj.description ++ proj.technologies

/-- Insert into a score-descending list: skip entries with a strictly larger
score, stop at the first entry whose score is ≤ the inserted one. -/
def insertDesc (x : Nat × α) : List (Nat × α) → List (Nat × α)
  | [] => [x]
  | y :: ys => if y.1 ≤ x.1 then x :: y :: ys else y :: insertDesc x ys

/-- Python `scored.sort(key=lambda x: x[0], reverse=True)` (lines 54 and 66):
a stable sort by score descending. The list is consumed right to left, so every
entry is inserted ahead of later entries with an equal score; the result of a
stable sort under a fixed key is unique, so this insertion sort embeds
Python's Timsort extensionally. -/
def sortScoredDesc : List (Nat × α) → List (Nat × α)
  | [] => []
  | x :: xs => insertDesc x (sortScoredDesc xs)

/-- Line 48-51: each work experience paired with its keyword score. -/
def scoredExperiences (work : List WorkExp) (job_keywords : List String) : List (Nat × WorkExp) :=
  work.map (fun exp => (calculate_keyword_score (expText exp) job_keywords, exp))

/-- Lines 46-56: sort scored experiences descending and keep an entry when its
score is positive or the whole list has at most 3 entries. -/
def tailorWorkExperience (work : List WorkExp) (job_keywords : List String) : List WorkExp :=
  ((sortScoredDesc (scoredExperiences work job_keywords)).filter
      (fun se => decide (0 < se.1) || decide ((scoredExperiences work job_keywords).length ≤ 3))).map
    Prod.snd

/-- Lines 59-63: each project paired with its keyword score. -/
def scoredProjects (projects : List Project) (job_keywords : List String) : List (Nat × Project) :=
  projects.map (fun proj => (calculate_keyword_score (projText proj) job_keywords, proj))

/-- Lines 58-68: same algorithm as work experience with a threshold of 2. -/
def tailorProjects (projects : List Project) (job_keywords : List String) : List Project :=
  ((sortScoredDesc (scoredProjects projects job_keywords)).filter
      (fun sp => decide (0 < sp.1) || decide ((scoredProjects projects job_keywords).length ≤ 2))).map
    Prod.snd

/-- The value stored at `tailored_resume["skills"]`. It is initialised as
`defaultdict(list)` — a dict — on line 43, yet lines 74/76 invoke the list
methods `insert`/`append` on it, which Python answers with `AttributeError`. -/
inductive SkillsTarget where
  | pydict (entries : List (String × List String))
  | pylist (entries : List String)
deriving DecidableEq

/-- Python `target.insert(0, v)`: prepends for a list, raises for a dict. -/
def SkillsTarget.insertFront : SkillsTarget → String → Except String SkillsTarget
  | .pylist xs, v => .ok (.pylist (v :: xs))
  | .pydict _, _ =>
    .error "AttributeError: collections.defaultdict object has no attribute insert"

/-- Python `target.append(v)`: appends for a list, raises for a dict. -/
def SkillsTarget.appendBack : SkillsTarget → String → Except String SkillsTarget
  | .pylist xs, v => .ok (.pylist (xs ++ [v]))
  | .pydict _, _ =>
    .error "AttributeError: collections.defaultdict object has no attribute append"

/-- Line 73: `any(keyword.lower() in skill.lower() for keyword in job_keywords)`. -/
def skillMatches (job_keywords : List String) (skill : String) : Bool :=
  job_keywords.any (fun keyword => strContains (pyLower skill) (pyLower keyword))

/-- Lines 72-76, inner loop over one category's skill list; a raised
`AttributeError` propagates as `Except.error`. -/
def tailorSkillsList (job_keywords : List String) :
    SkillsTarget → List String → Except String SkillsTarget
  | acc, [] => .ok acc
  | acc, skill :: rest =>
    match (if skillMatches job_keywords skill
           then acc.insertFront skill else acc.appendBack skill) with
    | .error e => .error e
    | .ok acc' => tailorSkillsList job_keywords acc' rest

/-- Line 71, outer loop over `self.profile_data["skills"].items()`. -/
def tailorSkills (job_keywords : List String) :
    SkillsTarget → List (String × List String) → Except String SkillsTarget
  | acc, [] => .ok acc
  | acc, (_, skills_list) :: rest =>
    match tailorSkillsList job_keywords acc skills_list with
    | .error e => .error e
    | .ok acc' => tailorSkills job_keywords acc' rest

/-- The dictionary built by `tailor_resume` (lines 38-44 and 78). -/
structure TailoredResume where
  personal_info : List (String × String)
  education : List (List (String × String))
  work_experience : List WorkExp
  projects : List Project
  skills : SkillsTarget
deriving DecidableEq

/-- `ResumeTailor.tailor_resume` (lines 32-78). The work-experience and project
steps are pure; the skills step raises `AttributeError` unless it never
executes an iteration. -/
def tailor_resume (profile : Profile) (job_description : String) :
    Except String TailoredResume :=
  let job_keywords := extract_keywords job_description
  match tailorSkills job_keywords (.pydict []) profile.skills with
  | .error e => .error e
  | .ok skills =>
    .ok { personal_info := profile.personal_info
          education := profile.education
          work_experience := tailorWorkExperience profile.work_experience job_keywords
          projects := tailorProjects profile.projects job_keywords
          skills := skills }

/-! ### Skills step crash: C1, C2 -/

theorem tailorSkills_ok_iff (kw : List String) (d : List (String × List String)) :
    ∀ cats : List (String × List String),
      (∃ r, tailorSkills kw (.pydict d) cats = Except.ok r) ↔ ∀ c ∈ cats, c.2 = [] := by
  intro cats
  induction cats with
  | nil => simp [tailorSkills]
  | cons c rest ih =>
    obtain ⟨name, l⟩ := c
    cases l with
    | nil => simpa [tailorSkills, tailorSkillsList] using ih
    | cons s ls =>
      cases hm : skillMatches kw s <;>
        simp [tailorSkills, tailorSkillsList, hm, SkillsTarget.insertFront,
          SkillsTarget.appendBack]

/-- Claim C2: `tailor_resume` returns a result exactly when every skills
category's list is empty; any actual skill makes the skills step invoke a list
method on the skills dict, which raises. -/
theorem tailor_resume_ok_iff (profile : Profile) (job_description : String) :
    (∃ r, tailor_resume profile job_description = Except.ok r)
      ↔ ∀ cat ∈ profile.skills, cat.2 = [] := by
  rw [← tailorSkills_ok_iff (extract_keywords job_description) [] profile.skills]
  constructor
  · rintro ⟨r, hr⟩
    simp only [tailor_resume] at hr
    rcases htk : tailorSkills (extract_keywords job_description) (.pydict []) profile.skills with
      e | sk
    · rw [htk] at hr
      simp at hr
    · exact ⟨sk, rfl⟩
  · rintro ⟨sk, hsk⟩
    refine ⟨{ personal_info := profile.personal_info
              education := profile.education
              work_experience :=
                tailorWorkExperience profile.work_experience (extract_keywords job_description)
              projects := tailorProjects profile.projects (extract_keywords job_description)
              skills := sk }, ?_⟩
    simp only [tailor_resume]
    rw [hsk]

/-- Claim C1 (evaluation at the failing input): for the spec's own scenario —
one skill "Python" in category "Languages", job description "Seeking Python
engineer" — the skill matches a keyword, the code reaches
`tailored_resume["skills"].insert(0, skill)` on the dict, and `tailor_resume`
raises instead of producing the claimed per-category skill ordering. -/
theorem tailor_resume_crash_on_python_skill :
    tailor_resume
        { personal_info := [("name", "Test User")]
          education := []
          work_experience := []
          projects := []
          skills := [("Languages", ["Python"])] }
        "Seeking Python engineer"
      = Except.error "AttributeError: collections.defaultdict object has no attribute insert" := by
  rfl

/-! ### Work-experience tailoring: C5 -/

theorem insertDesc_perm (x : Nat × α) (l : List (Nat × α)) : (insertDesc x l).Perm (x :: l) := by
  induction l with
  | nil => exact List.Perm.refl _
  | cons y ys ih =>
    unfold insertDesc
    split
    · exact List.Perm.refl _
    · exact (ih.cons y).trans (List.Perm.swap x y ys)

theorem sortScoredDesc_perm (l : List (Nat × α)) : (sortScoredDesc l).Perm l := by
  induction l with
  | nil => exact List.Perm.refl _
  | cons x xs ih => exact (insertDesc_perm x (sortScoredDesc xs)).trans (ih.cons x)

theorem insertDesc_pairwise (x : Nat × α) (l : List (Nat × α))
    (h : l.Pairwise (fun a b => b.1 ≤ a.1)) :
    (insertDesc x l).Pairwise (fun a b => b.1 ≤ a.1) := by
  induction l with
  | nil => simp [insertDesc]
  | cons y ys ih =>
    rw [List.pairwise_cons] at h
    unfold insertDesc
    split
    · rename_i hle
      refine List.Pairwise.cons ?_ (List.pairwise_cons.2 h)
      intro b hb
      rcases List.mem_cons.1 hb with rfl | hb
      · exact hle
      · exact le_trans (h.1 b hb) hle
    · rename_i hgt
      refine List.Pairwise.cons ?_ (ih h.2)
      intro b hb
      rcases List.mem_cons.1 ((insertDesc_perm x ys).mem_iff.1 hb) with rfl | hb2
      · omega
      · exact h.1 b hb2

theorem sortScoredDesc_pairwise (l : List (Nat × α)) :
    (sortScoredDesc l).Pairwise (fun a b => b.1 ≤ a.1) := by
  induction l with
  | nil => simp [sortScoredDesc]
  | cons x xs ih => exact insertDesc_pairwise x (sortScoredDesc xs) ih

theorem insertDesc_filter_eq (x : Nat × α) (l : List (Nat × α)) (s : Nat) :
    (insertDesc x l).filter (fun q => q.1 == s)
      = if x.1 == s then x :: l.filter (fun q => q.1 == s)
        else l.filter (fun q => q.1 == s) := by
  induction l with
  | nil => by_cases hx : x.1 = s <;> simp [insertDesc, List.filter_cons, hx]
  | cons y ys ih =>
    unfold insertDesc
    split
    · rw [List.filter_cons]
    · rename_i hgt
      rw [List.filter_cons, ih, List.filter_cons]
      by_cases hx : x.1 = s
      · have hy : ¬ y.1 = s := by omega
        simp [hx, hy]
      · simp [hx]

theorem sortScoredDesc_filter_eq (l : List (Nat × α)) (s : Nat) :
    (sortScoredDesc l).filter (fun q => q.1 == s) = l.filter (fun q => q.1 == s) := by
  induction l with
  | nil => rfl
  | cons x xs ih =>
    rw [sortScoredDesc, insertDesc_filter_eq, List.filter_cons, ih]

/-- Claim C5: the tailored work_experience list is the scored entries
stable-sorted by score descending (a permutation, sorted, with every score
class kept in original order), keeping an entry exactly when its score is
positive or the original list has at most 3 entries; with 4 or more entries
and no keyword match the result is empty. The first conjunct ties the
computation to `tailor_resume`'s output whenever it returns one. -/
theorem tailor_work_spec (work : List WorkExp) (jd : String) :
    (∀ (p : Profile) (r : TailoredResume), tailor_resume p jd = Except.ok r →
        r.work_experience = tailorWorkExperience p.work_experience (extract_keywords jd))
    ∧ (scoredExperiences work (extract_keywords jd)).length = work.length
    ∧ tailorWorkExperience work (extract_keywords jd)
        = ((sortScoredDesc (scoredExperiences work (extract_keywords jd))).filter
              (fun se => decide (0 < se.1)
                || decide ((scoredExperiences work (extract_keywords jd)).length ≤ 3))).map
            Prod.snd
    ∧ (sortScoredDesc (scoredExperiences work (extract_keywords jd))).Perm
        (scoredExperiences work (extract_keywords jd))
    ∧ (sortScoredDesc (scoredExperiences work (extract_keywords jd))).Pairwise
        (fun a b => b.1 ≤ a.1)
    ∧ (∀ s : Nat,
        (sortScoredDesc (scoredExperiences work (extract_keywords jd))).filter
            (fun q => q.1 == s)
          = (scoredExperiences work (extract_keywords jd)).filter (fun q => q.1 == s))
    ∧ (3 < work.length →
        (∀ exp ∈ work, calculate_keyword_score (expText exp) (extract_keywords jd) = 0) →
        tailorWorkExperience work (extract_keywords jd) = []) := by
  refine ⟨?_, by simp [scoredExperiences], rfl, sortScoredDesc_perm _, sortScoredDesc_pairwise _,
    fun s => sortScoredDesc_filter_eq _ s, ?_⟩
  · intro p r h
    simp only [tailor_resume] at h
    rcases htk : tailorSkills (extract_keywords jd) (.pydict []) p.skills with e | sk
    · rw [htk] at h
      simp at h
    · rw [htk] at h
      simp only [Except.ok.injEq] at h
      rw [← h]
  · intro hlen hzero
    have hall : ∀ q ∈ sortScoredDesc (scoredExperiences work (extract_keywords jd)), q.1 = 0 := by
      intro q hq
      obtain ⟨e, he, rfl⟩ :=
        List.mem_map.1 ((sortScoredDesc_perm _).mem_iff.1 hq)
      exact hzero e he
    have hlen2 : (scoredExperiences work (extract_keywords jd)).length = work.length := by
      simp [scoredExperiences]
    unfold tailorWorkExperience
    rw [List.map_eq_nil_iff, List.filter_eq_nil_iff]
    intro q hq
    simp [hall q hq, hlen2]
    omega

/-- Witness for C5: four work entries, none matching any keyword of the job
description, tailor to the empty list. -/
theorem tailor_work_spec_witness :
    tailorWorkExperience
        [{ title := "Chef", company := "Bistro" }, { title := "Clerk", company := "Store" },
          { title := "Guard", company := "Mall" }, { title := "Nurse", company := "Ward" }]
        (extract_keywords "Seeking Python engineer")
      = [] :=
  (tailor_work_spec
      [{ title := "Chef", company := "Bistro" }, { title := "Clerk", company := "Store" },
        { title := "Guard", company := "Mall" }, { title := "Nurse", company := "Ward" }]
      "Seeking Python engineer").2.2.2.2.2.2 (by decide) (by decide)

/-! ### Job repository (job_database.py) -/

/-- A job dict passed to the repository; a `none` field models a missing key,
so `job_data.get(k)` yields Python `None` exactly when the field is `none`.
`fit_score` is a numeric column that the claims never compute with, modelled
as an integer; `raw_data` is an opaque snapshot and is omitted. -/
structure JobInput where
  company : Option String := none
  role : Option String := none
  location : Option String := none
  link : Option String := none
  date_posted : Option String := none
  original_category : Option String := none
  fit_score : Option Int := none
  fit_category : Option String := none
  status : Option String := none
deriving DecidableEq

/-- A stored row of the `jobs` table (columns of `_create_table`, lines 14-30). -/
structure JobRecord where
  id : Nat
  company : String
  role : String
  location : String
  link : String
  date_posted : String
  original_category : String
  fit_score : Int
  fit_category : String
  status : String
deriving DecidableEq

/-- `JobDatabase.insert_job` (lines 32-62): apply the `setdefault` defaults and
append a fresh row. Ids come from `AUTOINCREMENT` and the system never
deletes, so the fresh id is `length + 1`. -/
def insert_job (db : List JobRecord) (j : JobInput) : List JobRecord :=
  db ++ [{ id := db.length + 1
           company := j.company.getD "N/A"
           role := j.role.getD "N/A"
           location := j.location.getD "N/A"
           link := j.link.getD "N/A"
           date_posted := j.date_posted.getD "N/A"
           original_category := j.original_category.getD "N/A"
           fit_score := j.fit_score.getD (-1)
           fit_category := j.fit_category.getD "unclassified"
           status := j.status.getD "new" }]

/-- SQL `column = ?` with a possibly-NULL parameter: comparing with NULL
selects no row. -/
def sqlEq (stored : String) (param : Option String) : Bool :=
  match param with
  | some v => stored == v
  | none => false

/-- `JobDatabase.insert_jobs` (lines 64-76): for each job, skip it when some
stored row matches `link = job_data.get('link') AND role =
job_data.get('role')`, otherwise insert it and count it. -/
def insert_jobs (db : List JobRecord) : List JobInput → Nat × List JobRecord
  | [] => (0, db)
  | j :: rest =>
    if db.any (fun r => sqlEq r.link j.link && sqlEq r.role j.role) then
      insert_jobs db rest
    else
      let out := insert_jobs (insert_job db j) rest
      (out.1 + 1, out.2)

/-- A sequence of `insert_jobs` calls applied to a store. -/
def run_insert_calls (db : List JobRecord) : List (List JobInput) → List JobRecord
  | [] => db
  | call :: calls => run_insert_calls (insert_jobs db call).2 calls

/-- The de-duplication invariant: no two stored rows share the (link, role)
pair. -/
def NoDupLinkRole (db : List JobRecord) : Prop :=
  db.Pairwise (fun a b => a.link ≠ b.link ∨ a.role ≠ b.role)

instance (db : List JobRecord) : Decidable (NoDupLinkRole db) :=
  List.instDecidablePairwise db

/-- Counterexample to C7 as stated: two jobs with no link and no role key are
both inserted — the duplicate check compares `None` with SQL `=`, which
matches nothing — leaving two stored rows that share the ("N/A", "N/A")
(link, role) pair, and the call even reports both as newly inserted. -/
theorem insert_jobs_missing_link_counterexample :
    ((insert_jobs [] [({} : JobInput), {}]).2.map (fun r => (r.link, r.role)))
        = [("N/A", "N/A"), ("N/A", "N/A")]
    ∧ (insert_jobs [] [({} : JobInput), {}]).1 = 2
    ∧ ¬ NoDupLinkRole (insert_jobs [] [({} : JobInput), {}]).2 := by
  decide

theorem insert_job_length (db : List JobRecord) (j : JobInput) :
    (insert_job db j).length = db.length + 1 := by
  simp [insert_job]

theorem insert_jobs_count (jobs : List JobInput) :
    ∀ db : List JobRecord,
      (insert_jobs db jobs).2.length = db.length + (insert_jobs db jobs).1 := by
  induction jobs with
  | nil => intro db; simp [insert_jobs]
  | cons j rest ih =>
    intro db
    rw [insert_jobs]
    split
    · exact ih db
    · have := ih (insert_job db j)
      rw [insert_job_length] at this
      simp only []
      omega

theorem insert_jobs_preserves (jobs : List JobInput) :
    ∀ db : List JobRecord, NoDupLinkRole db →
      (∀ j ∈ jobs, j.link.isSome ∧ j.role.isSome) →
      NoDupLinkRole (insert_jobs db jobs).2 := by
  induction jobs with
  | nil => intro db hdb _; exact hdb
  | cons j rest ih =>
    intro db hdb hfull
    rw [insert_jobs]
    split
    · exact ih db hdb (fun x hx => hfull x (List.mem_cons_of_mem j hx))
    · rename_i hnone
      refine ih (insert_job db j) ?_ (fun x hx => hfull x (List.mem_cons_of_mem j hx))
      obtain ⟨l, hl⟩ := Option.isSome_iff_exists.1 (hfull j (List.mem_cons_self j rest)).1
      obtain ⟨ro, hro⟩ := Option.isSome_iff_exists.1 (hfull j (List.mem_cons_self j rest)).2
      unfold NoDupLinkRole insert_job
      rw [List.pairwise_append]
      refine ⟨hdb, List.pairwise_singleton _ _, ?_⟩
      intro a ha b hb
      simp only [List.mem_singleton] at hb
      subst hb
      simp only [List.any_eq_true, not_exists, not_and, Bool.not_eq_true] at hnone
      have := hnone a ha
      rw [hl, hro] at this
      simp only [sqlEq, Bool.and_eq_false_iff, beq_eq_false_iff_ne] at this
      simp only [hl, hro, Option.getD_some]
      tauto

theorem run_insert_calls_preserves (calls : List (List JobInput)) :
    ∀ db : List JobRecord, NoDupLinkRole db →
      (∀ call ∈ calls, ∀ j ∈ call, j.link.isSome ∧ j.role.isSome) →
      NoDupLinkRole (run_insert_calls db calls) := by
  induction calls with
  | nil => intro db hdb _; exact hdb
  | cons call calls ih =>
    intro db hdb hfull
    rw [run_insert_calls]
    exact ih _
      (insert_jobs_preserves call db hdb (hfull call (List.mem_cons_self call calls)))
      (fun c hc => hfull c (List.mem_cons_of_mem call hc))

/-- Claim C7 (amended): every `insert_jobs` call returns exactly the number of
rows it appended; and provided every inserted job supplies link and role
values, any sequence of `insert_jobs` calls from the empty store keeps the
(link, role) pairs pairwise distinct — in particular a job inserted twice is
stored once and the second insertion counts zero. (Jobs missing link or role
escape the duplicate check, see the counterexample.) -/
theorem insert_jobs_unique_spec :
    (∀ (db : List JobRecord) (jobs : List JobInput),
        (insert_jobs db jobs).2.length = db.length + (insert_jobs db jobs).1)
    ∧ (∀ calls : List (List JobInput),
        (∀ call ∈ calls, ∀ j ∈ call, j.link.isSome ∧ j.role.isSome) →
        NoDupLinkRole (run_insert_calls [] calls))
    ∧ (∀ j : JobInput, j.link.isSome → j.role.isSome →
        (insert_jobs [] [j, j]).1 = 1 ∧ (insert_jobs [] [j, j]).2.length = 1) := by
  refine ⟨fun db jobs => insert_jobs_count jobs db,
    fun calls h => run_insert_calls_preserves calls [] (List.Pairwise.nil) h, ?_⟩
  intro j h1 h2
  obtain ⟨l, hl⟩ := Option.isSome_iff_exists.1 h1
  obtain ⟨ro, hro⟩ := Option.isSome_iff_exists.1 h2
  simp [insert_jobs, insert_job, sqlEq, hl, hro]

/-- Witness for the amended C7: inserting the same fully-specified job in two
successive calls leaves a store whose (link, role) pairs are distinct, and the
repeated single-call insertion stores one row counted once. -/
theorem insert_jobs_unique_spec_witness :
    NoDupLinkRole
        (run_insert_calls []
          [[{ link := some "http://google.com/job1", role := some "Software Engineer" }],
            [{ link := some "http://google.com/job1", role := some "Software Engineer" }]])
    ∧ ((insert_jobs []
          [{ link := some "http://google.com/job1", role := some "Software Engineer" },
            { link := some "http://google.com/job1", role := some "Software Engineer" }]).1 = 1
      ∧ (insert_jobs []
          [{ link := some "http://google.com/job1", role := some "Software Engineer" },
            { link := some "http://google.com/job1", role := some "Software Engineer" }]).2.length
        = 1) :=
  ⟨insert_jobs_unique_spec.2.1 _ (by decide),
    insert_jobs_unique_spec.2.2
      { link := some "http://google.com/job1", role := some "Software Engineer" }
      (by decide) (by decide)⟩

/-! ### Fit categorization: C6 (job_database.py lines 118-176) -/

/-- The fit-category assignment of `categorize_jobs` (lines 167-172), with the
caller-supplied thresholds and their declared defaults (line 118:
`high_threshold=5, medium_threshold=2`). -/
def fit_category (score : Int) (high_threshold : Int := 5) (medium_threshold : Int := 2) :
    String :=
  if score ≥ high_threshold then "High Fit"
  else if score ≥ medium_threshold then "Medium Fit"
  else "Low Fit"

/-- Claim C6: "High Fit" exactly when score ≥ high, "Medium Fit" exactly when
medium ≤ score < high, "Low Fit" otherwise; a score equal to a threshold takes
the higher category, and omitting the caller-supplied thresholds means 5, 2. -/
theorem fit_category_spec (score high_threshold medium_threshold : Int) :
    (fit_category score high_threshold medium_threshold = "High Fit"
        ↔ high_threshold ≤ score)
    ∧ (fit_category score high_threshold medium_threshold = "Medium Fit"
        ↔ medium_threshold ≤ score ∧ score < high_threshold)
    ∧ (fit_category score high_threshold medium_threshold = "Low Fit"
        ↔ score < high_threshold ∧ score < medium_threshold)
    ∧ fit_category score = fit_category score 5 2 := by
  unfold fit_category
  refine ⟨?_, ?_, ?_, rfl⟩ <;> split_ifs with h1 h2 <;> simp_all

/-! ### Status update frame: C10 (job_database.py lines 103-106) -/

/-- `JobDatabase.update_job_status`: `UPDATE jobs SET status = ? WHERE id = ?`,
i.e. rewrite the status of every row whose id matches. -/
def update_job_status (db : List JobRecord) (job_id : Nat) (new_status : String) :
    List JobRecord :=
  db.map (fun r => if r.id == job_id then { r with status := new_status } else r)

/-- Claim C10: `update_job_status` is a frame update — row for row, every field
except `status` is unchanged, and `status` becomes the new value exactly on the
rows whose id matches. -/
theorem update_job_status_frame (db : List JobRecord) (job_id : Nat) (new_status : String) :
    List.Forall₂
      (fun r r' =>
        r'.id = r.id ∧ r'.company = r.company ∧ r'.role = r.role ∧ r'.location = r.location
          ∧ r'.link = r.link ∧ r'.date_posted = r.date_posted
          ∧ r'.original_category = r.original_category ∧ r'.fit_score = r.fit_score
          ∧ r'.fit_category = r.fit_category
          ∧ r'.status = (if r.id = job_id then new_status else r.status))
      db (update_job_status db job_id new_status) := by
  induction db with
  | nil => exact List.Forall₂.nil
  | cons r rest ih =>
    simp only [update_job_status, List.map_cons] at ih ⊢
    refine List.Forall₂.cons ?_ ih
    by_cases h : r.id = job_id <;> simp [h]

/-! ### Profile store (profile_manager.py): C8, C9 -/

/-- A JSON document. JSON numbers are modelled as integers (no claim computes
with fractional profile values); `json.dump` followed by `json.load` is the
identity on such documents, so a stored file is modelled by its parsed value. -/
inductive Json where
  | null
  | bool (b : Bool)
  | num (n : Int)
  | str (s : String)
  | arr (elems : List Json)
  | obj (fields : List (String × Json))

/-- Python dict lookup `d.get(k)` over insertion-ordered fields. -/
def assocGet (l : List (String × α)) (k : String) : Option α :=
  match l with
  | [] => none
  | (k2, v) :: rest => if k2 == k then some v else assocGet rest k

/-- Python dict assignment `d[k] = v`: replace in place, else append. -/
def assocSet (l : List (String × α)) (k : String) (v : α) : List (String × α) :=
  if l.any (fun p => p.1 == k) then l.map (fun p => if p.1 == k then (k, v) else p)
  else l ++ [(k, v)]

/-- Python `d.setdefault(k, v)`: keep an existing entry, else append. -/
def assocSetDefault (l : List (String × α)) (k : String) (v : α) : List (String × α) :=
  if l.any (fun p => p.1 == k) then l else l ++ [(k, v)]

/-- Python truthiness of a JSON value (`if not new_profile.get(...)`). -/
def Json.falsy : Json → Bool
  | .null => true
  | .bool b => !b
  | .num n => n == 0
  | .str s => s == ""
  | .arr elems => elems.isEmpty
  | .obj fields => fields.isEmpty

/-- Modelled from the spec: the schema file `schemas/profile_schema.json` read
by `validate_profile` (profile_manager.py lines 8-29) is not among the
sources. Spec section 6 fixes its observable content: "validated against a
fixed schema (required top-level fields: personal_info, education,
work_experience, projects, skills)". Validation succeeds exactly when the
document is an object carrying the five required top-level fields. -/
def validate_profile (profile_data : Json) : Bool :=
  match profile_data with
  | .obj fields =>
    (["personal_info", "education", "work_experience", "projects", "skills"] : List String).all
      (fun k => fields.any (fun f => f.1 == k))
  | _ => false

/-- The profiles directory: one parsed JSON document per profile name. -/
abbrev ProfileStore := List (String × Json)

/-- `save_profile` (lines 49-62): refuse schema-invalid data with a failure
message, otherwise write the document under the profile name. -/
def save_profile (store : ProfileStore) (profile_name : String) (profile_data : Json) :
    (Bool × String) × ProfileStore :=
  if validate_profile profile_data then
    ((true, "Profile " ++ profile_name ++ " saved successfully."),
      assocSet store profile_name profile_data)
  else
    ((false, "Cannot save invalid profile."), store)

/-- `load_profile` (lines 31-47): a missing file reports "Profile not found.";
an existing document is returned even when schema-invalid (validation there
only prints a warning). -/
def load_profile (store : ProfileStore) (profile_name : String) :
    Option Json × Option String :=
  match assocGet store profile_name with
  | none => (none, some "Profile not found.")
  | some profile_data => (some profile_data, none)

/-- `create_new_profile` (lines 64-88). The interactive prompts for personal
information (lines 73-81) are modelled by the `prompted_personal_info`
argument; `initial_data` is an optional dict as in the Python signature. -/
def create_new_profile (store : ProfileStore) (profile_name : String)
    (initial_data : Option (List (String × Json))) (prompted_personal_info : Json) :
    (Bool × String) × ProfileStore :=
  match (load_profile store profile_name).1 with
  | some _ => ((false, "Profile " ++ profile_name ++ " already exists."), store)
  | none =>
    let np0 := initial_data.getD []
    let np1 :=
      if (match assocGet np0 "personal_info" with
          | none => true
          | some v => v.falsy) then
        assocSet np0 "personal_info" prompted_personal_info
      else np0
    let np2 := assocSetDefault np1 "education" (Json.arr [])
    let np3 := assocSetDefault np2 "work_experience" (Json.arr [])
    let np4 := assocSetDefault np3 "projects" (Json.arr [])
    let np5 := assocSetDefault np4 "skills" (Json.obj [])
    save_profile store profile_name (Json.obj np5)

theorem assocSet_cons_ne (k2 k : String) (w v : α) (rest : List (String × α)) (h : k2 ≠ k) :
    assocSet ((k2, w) :: rest) k v = (k2, w) :: assocSet rest k v := by
  by_cases hrest : rest.any (fun p => p.1 == k) <;> simp [assocSet, h, hrest]

theorem assocGet_assocSet (k : String) (v : α) :
    ∀ l : List (String × α), assocGet (assocSet l k v) k = some v := by
  intro l
  induction l with
  | nil => simp [assocSet, assocGet]
  | cons p rest ih =>
    obtain ⟨k2, w⟩ := p
    by_cases hk : k2 = k
    · subst hk
      simp [assocSet, assocGet]
    · rw [assocSet_cons_ne k2 k w v rest hk, assocGet]
      simp [hk, ih]

/-- Claim C8: saving a schema-valid profile succeeds, and loading the same
name afterwards returns exactly the saved document with no error. -/
theorem save_load_round_trip (store : ProfileStore) (profile_name : String)
    (profile_data : Json) (hvalid : validate_profile profile_data = true) :
    (save_profile store profile_name profile_data).1.1 = true
    ∧ load_profile (save_profile store profile_name profile_data).2 profile_name
        = (some profile_data, none) := by
  unfold save_profile load_profile
  rw [hvalid]
  simp [assocGet_assocSet]

/-- Witness for C8: a concrete schema-valid profile round-trips. -/
theorem save_load_round_trip_witness :
    load_profile
        (save_profile [] "alice"
          (Json.obj
            [("personal_info", Json.obj [("name", Json.str "Alice")]),
              ("education", Json.arr []), ("work_experience", Json.arr []),
              ("projects", Json.arr []), ("skills", Json.obj [])])).2 "alice"
      = (some
          (Json.obj
            [("personal_info", Json.obj [("name", Json.str "Alice")]),
              ("education", Json.arr []), ("work_experience", Json.arr []),
              ("projects", Json.arr []), ("skills", Json.obj [])]),
          none) :=
  (save_load_round_trip [] "alice"
      (Json.obj
        [("personal_info", Json.obj [("name", Json.str "Alice")]),
          ("education", Json.arr []), ("work_experience", Json.arr []),
          ("projects", Json.arr []), ("skills", Json.obj [])])
      (by rfl)).2

/-- Claim C9: when a document is already stored under the profile name,
`create_new_profile` fails with a message and returns the store unchanged. -/
theorem create_new_profile_exists (store : ProfileStore) (profile_name : String)
    (initial_data : Option (List (String × Json))) (prompted_personal_info : Json)
    (d : Json) (h : assocGet store profile_name = some d) :
    create_new_profile store profile_name initial_data prompted_personal_info
      = ((false, "Profile " ++ profile_name ++ " already exists."), store) := by
  unfold create_new_profile load_profile
  rw [h]

/-- Witness for C9: creating over an existing name fails and keeps the store. -/
theorem create_new_profile_exists_witness :
    create_new_profile [("bob", Json.null)] "bob" none Json.null
      = ((false, "Profile bob already exists."), [("bob", Json.null)]) :=
  create_new_profile_exists [("bob", Json.null)] "bob" none Json.null Json.null (by rfl)
